import Mathlib

/-!
Shallow embedding of the PMIx shared-memory GDS component
(src/src/mca/gds/shmem/gds_shmem.c) together with proofs settling the
claims about it.  Pointers and machine integers are modelled as natural
numbers with explicit reductions modulo 2^64 wherever the C code relies
on fixed-width wraparound; fallible collaborator calls are modelled as
explicit parameters carrying their outcomes.
-/

namespace GdsShmem

/-- PMIx status codes used by the embedded functions.  The numeric values
of the codes are irrelevant; only their distinctness matters. -/
inductive PmixStatus where
  | success
  | error
  | errBadParam
  | errTypeMismatch
  | errNomem
  | errNotSupported
  | errUnpackReadPastEndOfBuffer
  | errUnpackFailure
  | errOutOfResource
  deriving DecidableEq, Repr

/-- The modulus of C uintptr_t and size_t arithmetic (64-bit platform). -/
def UINTPTR_MOD : Nat := 2 ^ 64

/-- Embeds addr_align (gds_shmem.c:105).  The C code computes
((uintptr_t)base + size + 7) and then clears the low three bits with
the mask ~0x07; for a 64-bit value x, clearing the low three bits is
x - x % 8.  The uintptr_t addition wraps modulo 2^64. -/
def addr_align (base size : Nat) : Nat :=
  let x := (base + size + 7) % UINTPTR_MOD
  x - x % 8

/-- The alignment formula exactly as the spec and the claim word it:
align8(p) = (p + 7) with the low three bits cleared. -/
def align8 (p : Nat) : Nat :=
  (p + 7) - (p + 7) % 8

/-- The TMA cursor state: the value of the externally owned cursor
variable that tma->data_ptr points at. -/
structure Tma where
  cursor : Nat
  deriving DecidableEq, Repr

/-- Embeds tma_malloc (gds_shmem.c:122): returns the current cursor and
advances the cursor to addr_align(current, size).  The debug-mode memset
has no effect on the cursor and is omitted. -/
def tma_malloc (tma : Tma) (size : Nat) : Nat × Tma :=
  let current := tma.cursor
  (current, ⟨addr_align current size⟩)

/-- Embeds tma_calloc (gds_shmem.c:135): allocates nmemb * size bytes
(the zeroing does not affect the cursor). -/
def tma_calloc (tma : Tma) (nmemb size : Nat) : Nat × Tma :=
  let real_size := (nmemb * size) % UINTPTR_MOD
  let current := tma.cursor
  (current, ⟨addr_align current real_size⟩)

/-- A sequence of tma_malloc calls on the same TMA: the addresses they
return, in order, and the final TMA state. -/
def tma_malloc_all (t : Tma) : List Nat → List Nat × Tma
  | [] => ([], t)
  | n :: ns =>
      let r := tma_malloc t n
      let rs := tma_malloc_all r.2 ns
      (r.1 :: rs.1, rs.2)

/-- Result of a call to tma_realloc. -/
inductive TmaReallocResult where
  | assertionFailure
  | returnedPointer (ptr : Option Nat)
  deriving DecidableEq, Repr

/-- Embeds tma_realloc (gds_shmem.c:148).  The body is assert(false)
followed by return NULL.  With assertions active (the source semantics
of assert) the call traps; in an NDEBUG build the assert is erased and
the call returns the null pointer.  It never produces a usable pointer. -/
def tma_realloc (assertsActive : Bool) (_tma : Tma) (_ptr : Option Nat)
    (_size : Nat) : TmaReallocResult :=
  if assertsActive then .assertionFailure else .returnedPointer none

/-- Embeds pad_amount_to_page (gds_shmem.c:542): ((~size) + page_size + 1)
masked with (page_size - 1).  ~size is the 64-bit complement
2^64 - 1 - size; the additions wrap modulo 2^64. -/
def pad_amount_to_page (page_size size : Nat) : Nat :=
  (((UINTPTR_MOD - 1 - size) + page_size + 1) % UINTPTR_MOD) &&& (page_size - 1)

/-- The per-(tracker, role) status bits PMIX_GDS_SHMEM_ATTACHED,
PMIX_GDS_SHMEM_READY_FOR_USE and PMIX_GDS_SHMEM_RELEASE, modelled as
independent booleans. -/
structure ShmemStatusFlags where
  attached : Bool
  readyForUse : Bool
  release : Bool
  deriving DecidableEq, Repr

/-- All status bits clear, as after job_construct (gds_shmem.c:296). -/
def noStatusFlags : ShmemStatusFlags :=
  { attached := false, readyForUse := false, release := false }

/-- The shared-memory role held by a tracker (pmix_gds_shmem_job_shmem_id_t). -/
inductive ShmemId where
  | job
  | modex
  | invalid
  deriving DecidableEq, Repr

/-- Outcome of shmem_attach: the returned status, the updated status
flags, whether pmix_shmem_segment_detach was invoked on the way out, and
whether the address-mismatch diagnostic was emitted. -/
structure AttachOutcome where
  status : PmixStatus
  flags : ShmemStatusFlags
  detachCalled : Bool
  addressMismatchReported : Bool
  deriving DecidableEq, Repr

/-- Embeds shmem_attach (gds_shmem.c:651).  The collaborator call
pmix_shmem_segment_attach is modelled by its outcome: .error e when the
mapping syscall fails with status e (the C code then returns e directly,
before the out block), .ok a when the kernel mapped the file at address
a.  On an address mismatch the code emits the address-mismatch help
message, sets rc = PMIX_ERROR, and the out block detaches; on a match
the out block sets the ATTACHED flag. -/
def shmem_attach (flags : ShmemStatusFlags) (req_addr : Nat)
    (attachResult : Except PmixStatus Nat) : AttachOutcome :=
  match attachResult with
  | .error e =>
      { status := e, flags := flags
        detachCalled := false, addressMismatchReported := false }
  | .ok mmap_addr =>
      if mmap_addr ≠ req_addr then
        { status := PmixStatus.error, flags := flags
          detachCalled := true, addressMismatchReported := true }
      else
        { status := PmixStatus.success, flags := { flags with attached := true }
          detachCalled := false, addressMismatchReported := false }

/-- Embeds init_client_side_sm_data (gds_shmem.c:702): installs the
client-side header pointer and sets READY_FOR_USE; an invalid shmem id
is an error.  Clients do not overwrite the TMA function table. -/
def init_client_side_sm_data (flags : ShmemStatusFlags) (shmem_id : ShmemId) :
    PmixStatus × ShmemStatusFlags :=
  match shmem_id with
  | .invalid => (PmixStatus.error, flags)
  | _ => (PmixStatus.success, { flags with readyForUse := true })

/-- Embeds shmem_segment_attach_and_init (gds_shmem.c:728), the client
attach path: look up the shmem handle by id (fails on an invalid id),
copy path and size from the unpacked blob (not tracked here), attach at
the transmitted address, then install the client-side header pointers. -/
def shmem_segment_attach_and_init (flags : ShmemStatusFlags) (smid : ShmemId)
    (seg_addr : Nat) (attachResult : Except PmixStatus Nat) :
    PmixStatus × ShmemStatusFlags :=
  if smid = ShmemId.invalid then (PmixStatus.error, flags)
  else
    let o := shmem_attach flags seg_addr attachResult
    if o.status ≠ PmixStatus.success then (o.status, o.flags)
    else init_client_side_sm_data o.flags smid

/-- Outcome of shmem_segment_create_and_attach: status, updated flags,
the padded real segment size, and whether the backing file was created
(pmix_shmem_segment_create succeeded). -/
structure CreateAttachOutcome where
  status : PmixStatus
  flags : ShmemStatusFlags
  realSize : Nat
  backingFileCreated : Bool
  deriving DecidableEq, Repr

/-- Embeds shmem_segment_create_and_attach (gds_shmem.c:769), the server
creation path.  External collaborator calls are modelled by their
outcomes: holeResult for pmix_vmem_find_hole, pathResult for
get_shmem_backing_path (none on path overflow), createResult for
pmix_shmem_segment_create, attachResult for the mapping inside
shmem_attach.  real_segsize is computed in size_t, so the sum wraps
modulo 2^64.  The out block sets the RELEASE flag exactly when the
whole operation succeeded. -/
def shmem_segment_create_and_attach (flags : ShmemStatusFlags)
    (segment_size page_size : Nat) (holeResult : Except PmixStatus Nat)
    (pathResult : Option String) (createResult : PmixStatus)
    (attachResult : Except PmixStatus Nat) : CreateAttachOutcome :=
  let real_segsize :=
    (segment_size + pad_amount_to_page page_size segment_size) % UINTPTR_MOD
  let out : PmixStatus → ShmemStatusFlags → Bool → CreateAttachOutcome :=
    fun rc fl created =>
      if rc = PmixStatus.success then
        { status := rc, flags := { fl with release := true }
          realSize := real_segsize, backingFileCreated := created }
      else
        { status := rc, flags := fl
          realSize := real_segsize, backingFileCreated := created }
  match holeResult with
  | .error e => out e flags false
  | .ok base_addr =>
      match pathResult with
      | none => out PmixStatus.error flags false
      | some _ =>
          if createResult ≠ PmixStatus.success then out createResult flags false
          else
            let o := shmem_attach flags base_addr attachResult
            out o.status o.flags true

/-- The role-specific header of the MODEX segment
(pmix_gds_shmem_shared_modex_data): it records the capacity handed to
pmix_hash_table_init for its single hash-table container. -/
structure SharedModexData where
  hashtabInitCapacity : Nat
  deriving DecidableEq, Repr

/-- Embeds modex_smdata_construct (gds_shmem.c:496): lays out the modex
header and initializes its hash table with the given capacity. -/
def modex_smdata_construct (htsize : Nat) : SharedModexData :=
  { hashtabInitCapacity := htsize }

/-- The slice of the job tracker state that server_store_modex touches:
the MODEX ATTACHED bit, the modex header, and the segment size that was
requested when the modex segment was created.  Segment sizes are kept in
exact rational arithmetic; the C code computes them in size_t and then
scales by a float, whose rounding is abstracted away here. -/
structure JobModexState where
  modexAttached : Bool
  smmodex : Option SharedModexData
  modexSegSize : Option ℚ
  deriving DecidableEq

/-- Embeds server_store_modex (gds_shmem.c:1572).  If the MODEX segment
is not yet ATTACHED, it sizes and creates it (htsize = 256 * npeers,
seg_size = (bytes_used * npeers + sizeof hash table + htsize * sizeof
hash element) * 2.5 * multiplier) and lays out its header; otherwise it
goes straight to the delegation.  createResult models the outcome of
shmem_segment_create_and_attach (which sets ATTACHED on success) and
baseStoreResult the outcome of pmix_gds_base_store_modex. -/
def server_store_modex (st : JobModexState)
    (nprocs bytes_used sizeof_hash_table sizeof_hash_element : Nat)
    (multiplier : ℚ) (createResult baseStoreResult : PmixStatus) :
    PmixStatus × JobModexState :=
  if st.modexAttached then (baseStoreResult, st)
  else
    let fluff : ℚ := 5 / 2
    let npeers := nprocs
    let htsize := 256 * npeers
    let seg_size : ℚ :=
      ((bytes_used * npeers + sizeof_hash_table
          + htsize * sizeof_hash_element : Nat) : ℚ) * fluff * multiplier
    if createResult ≠ PmixStatus.success then (createResult, st)
    else
      (baseStoreResult,
        { modexAttached := true
          smmodex := some (modex_smdata_construct htsize)
          modexSegSize := some seg_size })

/-- The fields of pmix_gds_shmem_job_t that del_nspace reads. -/
structure PmixGdsShmemJob where
  nspace_id : String
  deriving DecidableEq, Repr

/-- The PMIX_LIST_FOREACH body of del_nspace (gds_shmem.c:1652): remove
and release the first tracker whose nspace_id matches, then break.
Returns the updated job list and the released tracker, if any. -/
def del_nspace_loop (nspace : String) :
    List PmixGdsShmemJob → List PmixGdsShmemJob × Option PmixGdsShmemJob
  | [] => ([], none)
  | ji :: rest =>
      if nspace = ji.nspace_id then (rest, some ji)
      else
        let r := del_nspace_loop nspace rest
        (ji :: r.1, r.2)

/-- Embeds del_nspace (gds_shmem.c:1652): always returns PMIX_SUCCESS. -/
def del_nspace (nspace : String) (jobs : List PmixGdsShmemJob) :
    PmixStatus × List PmixGdsShmemJob × Option PmixGdsShmemJob :=
  let r := del_nspace_loop nspace jobs
  (PmixStatus.success, r.1, r.2)

/-- LLONG_MAX on a 64-bit platform, the overflow bound of strtoll. -/
def LLONG_MAX : Nat := 2 ^ 63 - 1

/-- Digits of n in the given base, least significant first, by repeated
division; fuel bounds the recursion and 64 digits always suffice for a
64-bit value in any base of at least two. -/
def toDigitsRevFuel (base : Nat) : Nat → Nat → List Nat
  | 0, _ => []
  | fuel + 1, n =>
      if n = 0 then [] else n % base :: toDigitsRevFuel base fuel (n / base)

/-- The digit list printf emits for a nonnegative value: most significant
first, with zero printed as a single 0 digit. -/
def printDigits (base n : Nat) : List Nat :=
  if n = 0 then [0] else (toDigitsRevFuel base 64 n).reverse

/-- Models asprintf with %zd (base 10) or %zx (base 16, lowercase): the
character rendering of a size_t value.  Nat.digitChar yields 0-9 and
then lowercase a-f, matching the C conversions. -/
def printNumChars (base n : Nat) : List Char :=
  (printDigits base n).map Nat.digitChar

/-- The digit value strtoll assigns to a character under the given base:
decimal digits, then the letters a-f or A-F for bases that reach them;
characters outside the base stop the scan (modelled as none). -/
def charToDigit (base : Nat) (c : Char) : Option Nat :=
  let d : Option Nat :=
    if 48 ≤ c.toNat ∧ c.toNat ≤ 57 then some (c.toNat - 48)
    else if 97 ≤ c.toNat ∧ c.toNat ≤ 102 then some (c.toNat - 87)
    else if 65 ≤ c.toNat ∧ c.toNat ≤ 70 then some (c.toNat - 55)
    else none
  match d with
  | some v => if v < base then some v else none
  | none => none

/-- Scans a whole character list as digits.  none models the case in
which strtoll stops before the terminator, so that the *end check of
strtost fails. -/
def parseDigitsChars (base : Nat) : List Char → Option (List Nat)
  | [] => some []
  | c :: cs =>
      match charToDigit base c, parseDigitsChars base cs with
      | some d, some ds => some (d :: ds)
      | _, _ => none

/-- The value of a most-significant-first digit list. -/
def digitsVal (base : Nat) (ds : List Nat) : Nat :=
  ds.foldl (fun a d => a * base + d) 0

/-- Embeds strtost (gds_shmem.c:80) over its strtoll collaborator:
the whole string must scan as digits of the base (otherwise *end is not
the terminator) and the value must not exceed LLONG_MAX (otherwise
strtoll reports ERANGE at LLONG_MAX); none models PMIX_ERROR.  An empty
string scans to the value 0, exactly as strtoll does. -/
def strtost (base : Nat) (s : List Char) : Option Nat :=
  match parseDigitsChars base s with
  | none => none
  | some ds =>
      let v := digitsVal base ds
      if v > LLONG_MAX then none else some v

/-- Key names (gds_shmem.c:49), exactly as the source defines them. -/
def SHMEM_SEG_BLOB_KEY : String := "PMIX_GDS_SHMEM_SEG_BLOB"

/-- Key name (gds_shmem.c:50). -/
def SHMEM_SEG_NSID_KEY : String := "PMIX_GDS_SHMEM_NSPACEID"

/-- Key name (gds_shmem.c:51). -/
def SHMEM_SEG_SMID_KEY : String := "PMIX_GDS_SHMEM_SMSEGID"

/-- Key name (gds_shmem.c:52). -/
def SHMEM_SEG_PATH_KEY : String := "PMIX_GDS_SHMEM_SEG_PATH"

/-- Key name (gds_shmem.c:53). -/
def SHMEM_SEG_SIZE_KEY : String := "PMIX_GDS_SHMEM_SEG_SIZE"

/-- Key name (gds_shmem.c:54). -/
def SHMEM_SEG_ADDR_KEY : String := "PMIX_GDS_SHMEM_SEG_ADDR"

/-- Modelled from the spec: the structured info-array keys recognized by
store_job_info live in PMIx headers outside this repository; only their
distinctness from each other and from the segment-blob key matters. -/
def PMIX_SESSION_INFO_ARRAY : String := "PMIX_SESSION_INFO_ARRAY"

/-- Modelled from the spec: see PMIX_SESSION_INFO_ARRAY. -/
def PMIX_NODE_INFO_ARRAY : String := "PMIX_NODE_INFO_ARRAY"

/-- Modelled from the spec: see PMIX_SESSION_INFO_ARRAY. -/
def PMIX_APP_INFO_ARRAY : String := "PMIX_APP_INFO_ARRAY"

/-- Modelled from the spec: the process-data key whose array values are
stored in the hash table; its literal value lives in a PMIx header
outside this repository. -/
def PMIX_PROC_DATA : String := "PMIX_PROC_DATA"

/-- One string-valued key/value pair of a connection-info blob. -/
structure SegKv where
  key : String
  val : List Char
  deriving DecidableEq, Repr

/-- A packed buffer as the unpack loops observe it: the sequence of
key/value pairs it decodes to, followed by the status the codec returns
once the data are exhausted.  A well-formed buffer ends with the
read-past-end-of-buffer status; a corrupt one ends with some other
decode error. -/
structure PackedBuffer where
  items : List SegKv
  tail : PmixStatus
  deriving DecidableEq, Repr

/-- Embeds pack_shmem_connection_info (gds_shmem.c:956): five
string-typed pairs, in source order, with the shmem id rendered in
decimal and the size and base address rendered in lowercase hex.
Allocation failures of the outer codec are abstracted away. -/
def pack_shmem_connection_info (nspace_id : List Char) (shmem_id : Nat)
    (backing_path : List Char) (size base_address : Nat) : List SegKv :=
  [ { key := SHMEM_SEG_NSID_KEY, val := nspace_id },
    { key := SHMEM_SEG_SMID_KEY, val := printNumChars 10 shmem_id },
    { key := SHMEM_SEG_PATH_KEY, val := backing_path },
    { key := SHMEM_SEG_SIZE_KEY, val := printNumChars 16 size },
    { key := SHMEM_SEG_ADDR_KEY, val := printNumChars 16 base_address } ]

/-- pmix_gds_shmem_unpacked_seg_blob_t (gds_shmem.c:67). -/
structure UnpackedSegBlob where
  nsid : Option (List Char)
  smid : Option Nat
  seg_path : Option (List Char)
  seg_size : Nat
  seg_addr : Nat
  deriving DecidableEq, Repr

/-- Embeds unpacked_seg_blob_construct (gds_shmem.c:211): NULL strings,
the INVALID shmem id sentinel (none), and zero size and address. -/
def unpacked_seg_blob_construct : UnpackedSegBlob :=
  { nsid := none, smid := none, seg_path := none, seg_size := 0, seg_addr := 0 }

/-- The unpack loop of unpack_shmem_connection_info (gds_shmem.c:1113):
dispatch on the key, parse numeric fields with strtost (a parse failure
breaks with PMIX_ERROR), and break with PMIX_ERR_BAD_PARAM on any other
key; exhausting the buffer breaks with the codec tail status. -/
def unpack_ci_loop (tail : PmixStatus) (usb : UnpackedSegBlob) :
    List SegKv → PmixStatus × UnpackedSegBlob
  | [] => (tail, usb)
  | kv :: rest =>
      if kv.key = SHMEM_SEG_NSID_KEY then
        unpack_ci_loop tail { usb with nsid := some kv.val } rest
      else if kv.key = SHMEM_SEG_SMID_KEY then
        match strtost 10 kv.val with
        | none => (PmixStatus.error, usb)
        | some v => unpack_ci_loop tail { usb with smid := some v } rest
      else if kv.key = SHMEM_SEG_PATH_KEY then
        unpack_ci_loop tail { usb with seg_path := some kv.val } rest
      else if kv.key = SHMEM_SEG_SIZE_KEY then
        match strtost 16 kv.val with
        | none => (PmixStatus.error, usb)
        | some v => unpack_ci_loop tail { usb with seg_size := v } rest
      else if kv.key = SHMEM_SEG_ADDR_KEY then
        match strtost 16 kv.val with
        | none => (PmixStatus.error, usb)
        | some v => unpack_ci_loop tail { usb with seg_addr := v } rest
      else
        (PmixStatus.errBadParam, usb)

/-- The value of the kval handed to unpack_shmem_connection_info: either
a byte object carrying an embedded sub-buffer, or a value of some other
type. -/
inductive KvboValue where
  | byteObject (buf : PackedBuffer)
  | otherType
  deriving DecidableEq, Repr

/-- Embeds unpack_shmem_connection_info (gds_shmem.c:1088): reject a
non-byte-object value with a type mismatch, run the unpack loop, then
treat a read-past-end-of-buffer loop exit as success and anything else
as PMIX_ERR_UNPACK_FAILURE. -/
def unpack_shmem_connection_info (kvbo : KvboValue) :
    PmixStatus × UnpackedSegBlob :=
  match kvbo with
  | .otherType => (PmixStatus.errTypeMismatch, unpacked_seg_blob_construct)
  | .byteObject buf =>
      let r := unpack_ci_loop buf.tail unpacked_seg_blob_construct buf.items
      if r.1 ≠ PmixStatus.errUnpackReadPastEndOfBuffer then
        (PmixStatus.errUnpackFailure, r.2)
      else (PmixStatus.success, r.2)

/-- One key/value pair of a reply buffer as store_job_info observes it;
the payload beyond the key is irrelevant to the dispatch and the blob
handling is abstracted by a handler parameter below. -/
structure JobInfoKval where
  key : String
  deriving DecidableEq, Repr

/-- A reply buffer: decoded pairs followed by the codec tail status. -/
structure JobInfoBuffer where
  items : List JobInfoKval
  tail : PmixStatus
  deriving DecidableEq, Repr

/-- The unpack loop of store_job_info (gds_shmem.c:1517): a segment blob
is handed to unpack_shmem_seg_blob_and_attach_if_necessary (modelled by
blobHandler; a failure breaks with its status), the three structured
info-array keys are silently skipped, and any other key breaks with
PMIX_ERR_BAD_PARAM; exhausting the buffer breaks with the tail status. -/
def store_job_info_loop (blobHandler : JobInfoKval → PmixStatus)
    (tail : PmixStatus) : List JobInfoKval → PmixStatus
  | [] => tail
  | kval :: rest =>
      if kval.key = SHMEM_SEG_BLOB_KEY then
        let rc := blobHandler kval
        if rc ≠ PmixStatus.success then rc
        else store_job_info_loop blobHandler tail rest
      else if kval.key = PMIX_SESSION_INFO_ARRAY
          ∨ kval.key = PMIX_NODE_INFO_ARRAY
          ∨ kval.key = PMIX_APP_INFO_ARRAY then
        store_job_info_loop blobHandler tail rest
      else
        PmixStatus.errBadParam

/-- Embeds store_job_info (gds_shmem.c:1504): run the unpack loop, then
treat a read-past-end-of-buffer exit as success and anything else as
PMIX_ERR_UNPACK_FAILURE. -/
def store_job_info (blobHandler : JobInfoKval → PmixStatus)
    (buff : JobInfoBuffer) : PmixStatus :=
  let rc := store_job_info_loop blobHandler buff.tail buff.items
  if rc ≠ PmixStatus.errUnpackReadPastEndOfBuffer then
    PmixStatus.errUnpackFailure
  else PmixStatus.success

/-- One fetched job-level key/value pair as the sizing estimator sees
it: its key, whether the value type is PMIX_DATA_ARRAY, and the array
length when it is. -/
structure FetchedKval where
  key : String
  isDataArray : Bool
  darraySize : Nat
  deriving DecidableEq, Repr

/-- The entry counting loop of get_local_job_data_stats
(gds_shmem.c:1244): an array-typed value counts its array length when
its key is the process-data key (and nothing otherwise); a non-array
value counts one. -/
def count_expected_ht_entries (kvs : List FetchedKval) : Nat :=
  kvs.foldl
    (fun nhtentries kvi =>
      if kvi.isDataArray then
        if kvi.key = PMIX_PROC_DATA then nhtentries + kvi.darraySize
        else nhtentries
      else nhtentries + 1)
    0

/-- Embeds get_actual_hashtab_capacity (gds_shmem.c:1215).  The hash
table is an external collaborator; htCapacityOf models the ht_capacity
the collaborator actually allocates for a given expected element count,
as read back from a freshly initialized temporary table. -/
def get_actual_hashtab_capacity (htCapacityOf : Nat → Nat)
    (num_elements : Nat) : Nat :=
  htCapacityOf num_elements

/-- pmix_gds_shmem_local_job_stats_t (gds_shmem.c:59). -/
structure LocalJobStats where
  packed_size : Nat
  hash_table_size : Nat
  deriving DecidableEq, Repr

/-- Embeds get_local_job_data_stats (gds_shmem.c:1229): walk the fetched
list once counting expected hash entries, pack it into a scratch buffer
(the codec is a collaborator; packedSizeOf models the bytes each pair
contributes, and pack failures are abstracted away), and record the
collaborator capacity for the entry count. -/
def get_local_job_data_stats (htCapacityOf : Nat → Nat)
    (packedSizeOf : FetchedKval → Nat) (kvs : List FetchedKval) :
    LocalJobStats :=
  { packed_size := (kvs.map packedSizeOf).sum
    hash_table_size :=
      get_actual_hashtab_capacity htCapacityOf (count_expected_ht_entries kvs) }

/-- The slice of pmix_gds_shmem_shared_job_data_t that claim C1 needs:
the capacity handed to pmix_hash_table_init for local_hashtab. -/
structure SharedJobData where
  localHashtabInitCapacity : Nat
  deriving DecidableEq, Repr

/-- Embeds the hash-table portion of job_smdata_construct
(gds_shmem.c:462): the shared local hash table is initialized with the
given capacity. -/
def job_smdata_construct (htsize : Nat) : SharedJobData :=
  { localHashtabInitCapacity := htsize }

/-- Embeds the header layout step of prepare_shmem_store_for_local_job_data
(gds_shmem.c:905): the hash-table capacity handed to job_smdata_construct
is the hash_table_size recorded in the stats. -/
def prepare_shmem_store_for_local_job_data (stats : LocalJobStats) :
    SharedJobData :=
  job_smdata_construct stats.hash_table_size

/-- The entry count exactly as claim C1 words it: an array-typed value
whose key is the process-data key contributes its array length, and
every other key contributes exactly one.  Stated only to be compared
with count_expected_ht_entries, which is translated from the source. -/
def claimed_expected_ht_entries (kvs : List FetchedKval) : Nat :=
  kvs.foldl
    (fun n kvi =>
      if kvi.isDataArray ∧ kvi.key = PMIX_PROC_DATA then n + kvi.darraySize
      else n + 1)
    0

/-! Helper lemmas. -/

/-- UINTPTR_MOD as a numeral, for omega. -/
theorem UINTPTR_MOD_eq : UINTPTR_MOD = 18446744073709551616 := by
  norm_num [UINTPTR_MOD]

/-- Without 64-bit wraparound, addr_align is exactly the align8 of the
claim applied to base + size. -/
theorem addr_align_eq_align8 (base size : Nat)
    (h : base + size + 7 < UINTPTR_MOD) :
    addr_align base size = align8 (base + size) := by
  simp only [addr_align, align8, UINTPTR_MOD_eq] at h ⊢
  omega

/-- addr_align always lands on a multiple of eight. -/
theorem addr_align_mod_eight (base size : Nat) :
    addr_align base size % 8 = 0 := by
  simp only [addr_align]
  omega

/-- Every address returned by a run of tma_malloc calls is a multiple of
eight as soon as the starting cursor is. -/
theorem tma_malloc_all_aligned (sizes : List Nat) :
    ∀ t : Tma, t.cursor % 8 = 0 →
      ∀ a ∈ (tma_malloc_all t sizes).1, a % 8 = 0 := by
  induction sizes with
  | nil => intro t ht a ha; simp [tma_malloc_all] at ha
  | cons n ns ih =>
      intro t ht a ha
      simp only [tma_malloc_all, tma_malloc, List.mem_cons] at ha
      rcases ha with ha | ha
      · simpa [ha] using ht
      · exact ih ⟨addr_align t.cursor n⟩ (addr_align_mod_eight t.cursor n) a ha

/-- Claim C4: tma_malloc returns the current cursor and advances the
cursor to align8(cursor + n) with align8(p) = (p + 7) with the low three
bits cleared; hence the address handed out by the next allocation equals
align8(a1 + n1), and every address returned by any run of allocations is
a multiple of eight whenever the initial cursor is. -/
theorem claim_C4_tma_alloc (t : Tma) (n1 n2 : Nat) (sizes : List Nat)
    (h1 : t.cursor + n1 + 7 < UINTPTR_MOD) :
    (tma_malloc t n1).1 = t.cursor
    ∧ (tma_malloc t n1).2.cursor = align8 (t.cursor + n1)
    ∧ (tma_malloc (tma_malloc t n1).2 n2).1 = align8 ((tma_malloc t n1).1 + n1)
    ∧ (t.cursor % 8 = 0 → ∀ a ∈ (tma_malloc_all t sizes).1, a % 8 = 0) := by
  refine ⟨rfl, ?_, ?_, fun ht => tma_malloc_all_aligned sizes t ht⟩
  · simpa [tma_malloc] using addr_align_eq_align8 t.cursor n1 h1
  · simpa [tma_malloc] using addr_align_eq_align8 t.cursor n1 h1

/-- Witness for claim C4 at a concrete TMA state. -/
theorem claim_C4_witness :
    (tma_malloc ⟨16⟩ 5).1 = 16
    ∧ (tma_malloc ⟨16⟩ 5).2.cursor = align8 (16 + 5)
    ∧ (tma_malloc (tma_malloc ⟨16⟩ 5).2 3).1 = align8 ((tma_malloc ⟨16⟩ 5).1 + 5)
    ∧ (16 % 8 = 0 → ∀ a ∈ (tma_malloc_all ⟨16⟩ [5, 3, 11]).1, a % 8 = 0) := by
  exact claim_C4_tma_alloc ⟨16⟩ 5 3 [5, 3, 11] (by decide)

/-- Claim C9: tma_realloc is unsupported: with assertions active (the
semantics of the assert(false) in its body) every call traps, and no
call on any input ever produces a usable reallocated pointer (the
post-assert return value is NULL). -/
theorem claim_C9_realloc_unsupported (b : Bool) (t : Tma) (p : Option Nat)
    (n : Nat) :
    (b = true → tma_realloc b t p n = TmaReallocResult.assertionFailure)
    ∧ ∀ a : Nat,
        tma_realloc b t p n ≠ TmaReallocResult.returnedPointer (some a) := by
  constructor
  · intro hb; simp [tma_realloc, hb]
  · intro a; cases b <;> simp [tma_realloc]

/-- Witness for claim C9 at a concrete call. -/
theorem claim_C9_witness :
    tma_realloc true ⟨64⟩ (some 8) 32 = TmaReallocResult.assertionFailure := by
  exact (claim_C9_realloc_unsupported true ⟨64⟩ (some 8) 32).1 rfl

/-- For a power-of-two page size and a size below 2^64,
pad_amount_to_page reduces to (2^64 - size) mod page size. -/
theorem pad_amount_to_page_eq (k s : Nat) (hk : k ≤ 64) (hs : s < 2 ^ 64) :
    pad_amount_to_page (2 ^ k) s = (2 ^ 64 - s) % 2 ^ k := by
  have hdvd : (2 : Nat) ^ k ∣ 2 ^ 64 := pow_dvd_pow 2 hk
  have h1 : pad_amount_to_page (2 ^ k) s
      = ((2 ^ 64 - 1 - s + 2 ^ k + 1) % 2 ^ 64) % 2 ^ k := by
    simp only [pad_amount_to_page, UINTPTR_MOD]
    rw [Nat.and_pow_two_sub_one_eq_mod]
  rw [h1, Nat.mod_mod_of_dvd _ hdvd]
  have h2 : 2 ^ 64 - 1 - s + 2 ^ k + 1 = 2 ^ 64 - s + 2 ^ k := by omega
  rw [h2, Nat.add_mod_right]

/-- A multiple of P lying in [s, s + P) is s rounded up to the next
multiple of P. -/
theorem round_up_unique (P s v : Nat) (hP : 0 < P) (hdvd : P ∣ v)
    (h1 : s ≤ v) (h2 : v < s + P) : v = P * ((s + P - 1) / P) := by
  obtain ⟨t, rfl⟩ := hdvd
  have hle : t ≤ (s + P - 1) / P := by
    rw [Nat.le_div_iff_mul_le hP]
    have ha : t * P = P * t := Nat.mul_comm t P
    omega
  have hlt : (s + P - 1) / P < t + 1 := by
    rw [Nat.div_lt_iff_lt_mul hP]
    have hb : (t + 1) * P = P * t + P := by ring
    omega
  have heq : (s + P - 1) / P = t := by omega
  rw [heq]

/-- The padded size is the requested size rounded up to the next
multiple of the page size. -/
theorem pad_round_up (k s : Nat) (hk : k ≤ 64) (hs : s < 2 ^ 64) :
    s + pad_amount_to_page (2 ^ k) s
      = 2 ^ k * ((s + 2 ^ k - 1) / 2 ^ k) := by
  have hP : (0 : Nat) < 2 ^ k := pow_pos (by norm_num) k
  rw [pad_amount_to_page_eq k s hk hs]
  apply round_up_unique _ _ _ hP
  · apply Nat.dvd_of_mod_eq_zero
    have e1 : (s + (2 ^ 64 - s) % 2 ^ k) % 2 ^ k
        = (s + (2 ^ 64 - s)) % 2 ^ k := by
      conv_lhs => rw [Nat.add_mod]
      conv_rhs => rw [Nat.add_mod]
      rw [Nat.mod_mod_of_dvd _ dvd_rfl]
    have e2 : s + (2 ^ 64 - s) = 2 ^ 64 := by omega
    rw [e1, e2]
    exact Nat.dvd_iff_mod_eq_zero.mp (pow_dvd_pow 2 hk)
  · exact Nat.le_add_right s _
  · have hm : (2 ^ 64 - s) % 2 ^ k < 2 ^ k := Nat.mod_lt _ hP
    omega

/-- The realSize of shmem_segment_create_and_attach is the padded
request as a size_t (modulo 2^64), on every control path. -/
theorem create_and_attach_realSize (fl : ShmemStatusFlags) (s P : Nat)
    (hole : Except PmixStatus Nat) (path : Option String)
    (createRc : PmixStatus) (attach : Except PmixStatus Nat) :
    (shmem_segment_create_and_attach fl s P hole path createRc attach).realSize
      = (s + pad_amount_to_page P s) % UINTPTR_MOD := by
  rcases hole with e | a <;> rcases path with _ | p <;> rcases attach with e2 | a2 <;>
    simp only [shmem_segment_create_and_attach, shmem_attach] <;>
    split_ifs <;> rfl

/-- Counterexample to claim C5 as stated: at a requested size of
2^64 - 1 with page size 2^12 the size_t sum segment_size +
pad_amount_to_page wraps to 0, so the created real size is 0 and not
the requested size rounded up to the next multiple of the page size. -/
theorem claim_C5_counterexample :
    (shmem_segment_create_and_attach noStatusFlags (2 ^ 64 - 1) (2 ^ 12)
        (Except.ok 8192) (some "seg-path") PmixStatus.success
        (Except.ok 8192)).realSize = 0
    ∧ (0 : Nat) ≠ 2 ^ 12 * ((2 ^ 64 - 1 + 2 ^ 12 - 1) / 2 ^ 12) := by
  constructor
  · decide
  · decide

/-- Claim C5, amended: whenever the requested size plus one page still
fits in size_t (s + P <= 2^64), the real size of a created segment is
the requested size plus pad_amount_to_page, which rounds the request up
to the next multiple of the (power-of-two) page size; for larger
requests the size_t sum wraps modulo 2^64.  A request of exactly one
page pads to one page, and a request of one byte more pads to two
pages. -/
theorem claim_C5_page_rounding (k s : Nat) (hk : k ≤ 64)
    (hs : s + 2 ^ k ≤ 2 ^ 64) :
    (∀ (fl : ShmemStatusFlags) (hole : Except PmixStatus Nat)
        (path : Option String) (createRc : PmixStatus)
        (attach : Except PmixStatus Nat),
      (shmem_segment_create_and_attach fl s (2 ^ k) hole path createRc
          attach).realSize
        = s + pad_amount_to_page (2 ^ k) s)
    ∧ s + pad_amount_to_page (2 ^ k) s = 2 ^ k * ((s + 2 ^ k - 1) / 2 ^ k)
    ∧ (k < 64 →
        2 ^ k + pad_amount_to_page (2 ^ k) (2 ^ k) = 2 ^ k
        ∧ 2 ^ k + 1 + pad_amount_to_page (2 ^ k) (2 ^ k + 1) = 2 * 2 ^ k) := by
  have hP : (0 : Nat) < 2 ^ k := pow_pos (by norm_num) k
  have hs64 : s < 2 ^ 64 := by omega
  have hpadlt : pad_amount_to_page (2 ^ k) s < 2 ^ k := by
    rw [pad_amount_to_page_eq k s hk hs64]
    exact Nat.mod_lt _ hP
  refine ⟨fun fl hole path c a => ?_, pad_round_up k s hk hs64,
    fun hk64 => ⟨?_, ?_⟩⟩
  · rw [create_and_attach_realSize fl s (2 ^ k) hole path c a]
    apply Nat.mod_eq_of_lt
    rw [UINTPTR_MOD_eq]
    have h64 : (2 : Nat) ^ 64 = 18446744073709551616 := by norm_num
    omega
  · have h1 : (2 : Nat) ^ k < 2 ^ 64 :=
      Nat.pow_lt_pow_right (by norm_num) hk64
    have h2 := pad_amount_to_page_eq k (2 ^ k) hk h1
    have h3 : (2 : Nat) ^ k ∣ 2 ^ 64 - 2 ^ k :=
      Nat.dvd_sub' (pow_dvd_pow 2 hk) dvd_rfl
    rw [h2, Nat.dvd_iff_mod_eq_zero.mp h3]
    omega
  · have hle : (2 : Nat) ^ k ≤ 2 ^ 63 :=
      Nat.pow_le_pow_right (by norm_num) (by omega)
    have h63 : (2 : Nat) ^ 63 + 1 < 2 ^ 64 := by norm_num
    have h1 : (2 : Nat) ^ k + 1 < 2 ^ 64 := by omega
    rw [pad_round_up k (2 ^ k + 1) hk h1]
    have h2 : 2 ^ k + 1 + 2 ^ k - 1 = 2 * 2 ^ k := by omega
    rw [h2, Nat.mul_div_cancel _ hP]
    ring

/-- Witness for claim C5 (amended) at page size 4096 and request 4097,
including the realSize of a concrete successful creation run. -/
theorem claim_C5_witness :
    (shmem_segment_create_and_attach noStatusFlags 4097 (2 ^ 12)
        (Except.ok 8192) (some "seg-path") PmixStatus.success
        (Except.ok 8192)).realSize
      = 4097 + pad_amount_to_page (2 ^ 12) 4097
    ∧ 4097 + pad_amount_to_page (2 ^ 12) 4097
      = 2 ^ 12 * ((4097 + 2 ^ 12 - 1) / 2 ^ 12)
    ∧ (2 ^ 12 + pad_amount_to_page (2 ^ 12) (2 ^ 12) = 2 ^ 12
        ∧ 2 ^ 12 + 1 + pad_amount_to_page (2 ^ 12) (2 ^ 12 + 1) = 2 * 2 ^ 12) := by
  have h := claim_C5_page_rounding 12 4097 (by norm_num) (by norm_num)
  exact ⟨h.1 noStatusFlags (Except.ok 8192) (some "seg-path")
    PmixStatus.success (Except.ok 8192), h.2.1, h.2.2 (by norm_num)⟩

/-- Claim C8: when the kernel maps the file somewhere other than the
requested address, shmem_attach reports the address mismatch, returns
the error status, detaches the segment, and leaves the ATTACHED flag
untouched; when the mapped address matches, it sets ATTACHED and
returns success without detaching. -/
theorem claim_C8_attach_address_check (fl : ShmemStatusFlags) (req res : Nat) :
    (res ≠ req →
      (shmem_attach fl req (Except.ok res)).status = PmixStatus.error
      ∧ (shmem_attach fl req (Except.ok res)).addressMismatchReported = true
      ∧ (shmem_attach fl req (Except.ok res)).detachCalled = true
      ∧ (shmem_attach fl req (Except.ok res)).flags.attached = fl.attached)
    ∧ (res = req →
      (shmem_attach fl req (Except.ok res)).status = PmixStatus.success
      ∧ (shmem_attach fl req (Except.ok res)).flags.attached = true
      ∧ (shmem_attach fl req (Except.ok res)).detachCalled = false) := by
  constructor
  · intro h
    simp [shmem_attach, h]
  · intro h
    simp [shmem_attach, h]

/-- Witness for claim C8: a mismatching and a matching concrete attach. -/
theorem claim_C8_witness :
    ((shmem_attach noStatusFlags 4096 (Except.ok 8192)).status = PmixStatus.error
      ∧ (shmem_attach noStatusFlags 4096 (Except.ok 8192)).addressMismatchReported = true
      ∧ (shmem_attach noStatusFlags 4096 (Except.ok 8192)).detachCalled = true
      ∧ (shmem_attach noStatusFlags 4096 (Except.ok 8192)).flags.attached
          = noStatusFlags.attached)
    ∧ ((shmem_attach noStatusFlags 4096 (Except.ok 4096)).status = PmixStatus.success
      ∧ (shmem_attach noStatusFlags 4096 (Except.ok 4096)).flags.attached = true
      ∧ (shmem_attach noStatusFlags 4096 (Except.ok 4096)).detachCalled = false) := by
  exact ⟨(claim_C8_attach_address_check noStatusFlags 4096 8192).1 (by decide),
         (claim_C8_attach_address_check noStatusFlags 4096 4096).2 rfl⟩

/-- Counterexample to claim C7 as stated: a run in which backing-file
creation succeeds but the attach lands at the wrong address leaves the
RELEASE flag clear, so RELEASE is not latched whenever creation
succeeds. -/
theorem claim_C7_counterexample :
    (shmem_segment_create_and_attach noStatusFlags 100 4096 (Except.ok 8192)
        (some "seg-path") PmixStatus.success (Except.ok 0)).backingFileCreated = true
    ∧ (shmem_segment_create_and_attach noStatusFlags 100 4096 (Except.ok 8192)
        (some "seg-path") PmixStatus.success (Except.ok 0)).flags.release = false := by
  constructor <;> rfl

/-- Claim C7, amended: on the creator, RELEASE is latched exactly when
the whole create-and-attach operation succeeds (creation and an attach
landing at the requested address); on any failure the flag is left as it
was.  The client attach path never touches RELEASE, and on success it
sets exactly ATTACHED and READY_FOR_USE. -/
theorem claim_C7_release_latching (fl : ShmemStatusFlags) (s P : Nat)
    (hole : Except PmixStatus Nat) (path : Option String)
    (createRc : PmixStatus) (attach : Except PmixStatus Nat)
    (smid : ShmemId) (seg_addr : Nat) (attach2 : Except PmixStatus Nat)
    (hA : ∀ e, attach2 = Except.error e → e ≠ PmixStatus.success) :
    ((shmem_segment_create_and_attach fl s P hole path createRc attach).status
        = PmixStatus.success →
      (shmem_segment_create_and_attach fl s P hole path createRc
          attach).flags.release = true)
    ∧ ((shmem_segment_create_and_attach fl s P hole path createRc attach).status
        ≠ PmixStatus.success →
      (shmem_segment_create_and_attach fl s P hole path createRc
          attach).flags.release = fl.release)
    ∧ (shmem_segment_attach_and_init fl smid seg_addr attach2).2.release
        = fl.release
    ∧ ((shmem_segment_attach_and_init fl smid seg_addr attach2).1
        = PmixStatus.success →
      (shmem_segment_attach_and_init fl smid seg_addr attach2).2.attached = true
      ∧ (shmem_segment_attach_and_init fl smid seg_addr attach2).2.readyForUse
          = true) := by
  refine ⟨?_, ?_, ?_, ?_⟩
  · intro h
    rcases hole with e | a <;> rcases path with _ | p <;> rcases attach with e2 | a2 <;>
      simp only [shmem_segment_create_and_attach, shmem_attach] at h ⊢ <;>
      split_ifs at h ⊢ <;> simp_all
  · intro h
    rcases hole with e | a <;> rcases path with _ | p <;> rcases attach with e2 | a2 <;>
      simp only [shmem_segment_create_and_attach, shmem_attach] at h ⊢ <;>
      split_ifs at h ⊢ <;> simp_all
  · rcases attach2 with e2 | a2 <;>
      rcases smid with _ | _ | _ <;>
      simp only [shmem_segment_attach_and_init, shmem_attach,
        init_client_side_sm_data] <;>
      split_ifs <;> simp_all
  · intro h
    rcases attach2 with e2 | a2
    · have he2 := hA e2 rfl
      rcases smid with _ | _ | _ <;>
        simp only [shmem_segment_attach_and_init, shmem_attach,
          init_client_side_sm_data] at h ⊢ <;>
        split_ifs at h ⊢ <;> simp_all
    · rcases smid with _ | _ | _ <;>
        simp only [shmem_segment_attach_and_init, shmem_attach,
          init_client_side_sm_data] at h ⊢ <;>
        split_ifs at h ⊢ <;> simp_all

/-- Witness for claim C7 (amended) at concrete successful runs of both
the creator and the client paths. -/
theorem claim_C7_witness :
    ((shmem_segment_create_and_attach noStatusFlags 100 4096 (Except.ok 8192)
        (some "seg-path") PmixStatus.success (Except.ok 8192)).status
          = PmixStatus.success →
      (shmem_segment_create_and_attach noStatusFlags 100 4096 (Except.ok 8192)
        (some "seg-path") PmixStatus.success (Except.ok 8192)).flags.release = true)
    ∧ (shmem_segment_attach_and_init noStatusFlags ShmemId.job 8192
        (Except.ok 8192)).2.release = noStatusFlags.release := by
  have h := claim_C7_release_latching noStatusFlags 100 4096 (Except.ok 8192)
    (some "seg-path") PmixStatus.success (Except.ok 8192) ShmemId.job 8192
    (Except.ok 8192) (fun e he => by cases he)
  exact ⟨h.1, h.2.2.1⟩

/-- Claim C6: a modex buffer arriving while the MODEX segment is not
ATTACHED creates it with hash-table capacity 256 * npeers and estimated
size (buffer bytes * npeers + hash-table skeleton + capacity *
per-element storage) * 2.5 * multiplier; when it is already ATTACHED no
segment is created and the same segment is reused, so any later fence
payload leaves the state unchanged. -/
theorem claim_C6_modex_lazy_creation (st : JobModexState)
    (nprocs bytes_used shtab selem : Nat) (mult : ℚ)
    (createRc baseRc : PmixStatus)
    (nprocs2 bytes2 shtab2 selem2 : Nat) (mult2 : ℚ) (c2 b2 : PmixStatus) :
    (st.modexAttached = false → createRc = PmixStatus.success →
      (server_store_modex st nprocs bytes_used shtab selem mult createRc
          baseRc).2
        = { modexAttached := true
            smmodex := some (modex_smdata_construct (256 * nprocs))
            modexSegSize := some
              (((bytes_used * nprocs + shtab + 256 * nprocs * selem : Nat) : ℚ)
                * (5 / 2) * mult) })
    ∧ (st.modexAttached = true →
        (server_store_modex st nprocs bytes_used shtab selem mult createRc
            baseRc).2 = st)
    ∧ (st.modexAttached = false → createRc = PmixStatus.success →
        (server_store_modex
            (server_store_modex st nprocs bytes_used shtab selem mult createRc
                baseRc).2
            nprocs2 bytes2 shtab2 selem2 mult2 c2 b2).2
          = (server_store_modex st nprocs bytes_used shtab selem mult createRc
              baseRc).2) := by
  refine ⟨fun h hc => ?_, fun h => ?_, fun h hc => ?_⟩
  · simp [server_store_modex, h, hc]
  · simp [server_store_modex, h]
  · simp [server_store_modex, h, hc]

/-- Witness for claim C6 at a concrete first fence for four peers. -/
theorem claim_C6_witness :
    (server_store_modex ⟨false, none, none⟩ 4 1000 64 48 1
        PmixStatus.success PmixStatus.success).2
      = { modexAttached := true
          smmodex := some (modex_smdata_construct (256 * 4))
          modexSegSize := some (((1000 * 4 + 64 + 256 * 4 * 48 : Nat) : ℚ)
            * (5 / 2) * 1) } := by
  exact (claim_C6_modex_lazy_creation ⟨false, none, none⟩ 4 1000 64 48 1
    PmixStatus.success PmixStatus.success 4 0 0 0 1 PmixStatus.success
    PmixStatus.success).1 rfl rfl

/-- The del_nspace loop leaves the list untouched when nothing matches. -/
theorem del_nspace_loop_no_match (nspace : String) :
    ∀ jobs : List PmixGdsShmemJob,
      (∀ ji ∈ jobs, nspace ≠ ji.nspace_id) →
      del_nspace_loop nspace jobs = (jobs, none) := by
  intro jobs
  induction jobs with
  | nil => intro _; rfl
  | cons ji rest ih =>
      intro h
      have h1 : nspace ≠ ji.nspace_id := h ji (List.mem_cons_self ji rest)
      have h2 := ih fun x hx => h x (List.mem_cons_of_mem ji hx)
      simp [del_nspace_loop, h1, h2]

/-- The del_nspace loop removes exactly the first match. -/
theorem del_nspace_loop_first_match (nspace : String)
    (ji : PmixGdsShmemJob) (post : List PmixGdsShmemJob)
    (hj : nspace = ji.nspace_id) :
    ∀ pre : List PmixGdsShmemJob,
      (∀ x ∈ pre, nspace ≠ x.nspace_id) →
      del_nspace_loop nspace (pre ++ ji :: post) = (pre ++ post, some ji) := by
  intro pre
  induction pre with
  | nil => intro _; simp [del_nspace_loop, hj]
  | cons x rest ih =>
      intro h
      have h1 : nspace ≠ x.nspace_id := h x (List.mem_cons_self x rest)
      have h2 := ih fun y hy => h y (List.mem_cons_of_mem x hy)
      simp [del_nspace_loop, h1, h2]

/-- Claim C10: del_nspace returns success for every namespace; with no
matching tracker the job list is unchanged and nothing is released, and
with matches exactly the first matching tracker is removed and
released. -/
theorem claim_C10_del_nspace (nspace : String)
    (jobs : List PmixGdsShmemJob) :
    (del_nspace nspace jobs).1 = PmixStatus.success
    ∧ ((∀ ji ∈ jobs, nspace ≠ ji.nspace_id) →
        (del_nspace nspace jobs).2.1 = jobs
        ∧ (del_nspace nspace jobs).2.2 = none)
    ∧ (∀ (pre post : List PmixGdsShmemJob) (ji : PmixGdsShmemJob),
        jobs = pre ++ ji :: post →
        (∀ x ∈ pre, nspace ≠ x.nspace_id) →
        nspace = ji.nspace_id →
        (del_nspace nspace jobs).2.1 = pre ++ post
        ∧ (del_nspace nspace jobs).2.2 = some ji) := by
  refine ⟨rfl, fun h => ?_, fun pre post ji hsplit hpre hj => ?_⟩
  · have := del_nspace_loop_no_match nspace jobs h
    simp [del_nspace, this]
  · subst hsplit
    have := del_nspace_loop_first_match nspace ji post hj pre hpre
    simp [del_nspace, this]

/-- Witness for claim C10 on a concrete list with two matches: only the
first one is removed and released. -/
theorem claim_C10_witness :
    (del_nspace "ns1" [⟨"ns0"⟩, ⟨"ns1"⟩, ⟨"ns1"⟩]).2.1 = [⟨"ns0"⟩] ++ [⟨"ns1"⟩]
    ∧ (del_nspace "ns1" [⟨"ns0"⟩, ⟨"ns1"⟩, ⟨"ns1"⟩]).2.2
        = some ⟨"ns1"⟩ := by
  exact (claim_C10_del_nspace "ns1" [⟨"ns0"⟩, ⟨"ns1"⟩, ⟨"ns1"⟩]).2.2
    [⟨"ns0"⟩] [⟨"ns1"⟩] ⟨"ns1"⟩ rfl (by decide) rfl

/-- The counting fold of the estimator, as a sum over per-entry
contributions, for any starting accumulator. -/
theorem count_expected_ht_entries_go (kvs : List FetchedKval) :
    ∀ a : Nat,
      kvs.foldl
        (fun nhtentries kvi =>
          if kvi.isDataArray then
            if kvi.key = PMIX_PROC_DATA then nhtentries + kvi.darraySize
            else nhtentries
          else nhtentries + 1) a
      = a + (kvs.map (fun kvi =>
          if kvi.isDataArray then
            (if kvi.key = PMIX_PROC_DATA then kvi.darraySize else 0)
          else 1)).sum := by
  induction kvs with
  | nil => intro a; simp
  | cons kv rest ih =>
      intro a
      simp only [List.foldl_cons, List.map_cons, List.sum_cons, ih]
      by_cases h1 : kv.isDataArray <;> by_cases h2 : kv.key = PMIX_PROC_DATA <;>
        simp [h1, h2] <;> omega

/-- Counterexample to claim C1 as stated: an array-typed value under a
key other than the process-data key contributes nothing to the entry
count, not one as the claim asserts for every other key. -/
theorem claim_C1_counterexample :
    count_expected_ht_entries
        [{ key := "PMIX_CPUSET", isDataArray := true, darraySize := 3 }]
      ≠ claimed_expected_ht_entries
        [{ key := "PMIX_CPUSET", isDataArray := true, darraySize := 3 }] := by
  decide

/-- Claim C1, amended: the estimator counts array length for array-typed
values under the process-data key, nothing for array-typed values under
any other key, and one for every non-array value; the recorded
hash-table size is the collaborator capacity for that entry count, and
the shared local hash table is initialized with exactly that value. -/
theorem claim_C1_estimator (cap : Nat → Nat) (psize : FetchedKval → Nat)
    (kvs : List FetchedKval) :
    count_expected_ht_entries kvs
        = (kvs.map (fun kvi =>
            if kvi.isDataArray then
              (if kvi.key = PMIX_PROC_DATA then kvi.darraySize else 0)
            else 1)).sum
    ∧ (get_local_job_data_stats cap psize kvs).hash_table_size
        = get_actual_hashtab_capacity cap (count_expected_ht_entries kvs)
    ∧ (prepare_shmem_store_for_local_job_data
          (get_local_job_data_stats cap psize kvs)).localHashtabInitCapacity
        = (get_local_job_data_stats cap psize kvs).hash_table_size := by
  refine ⟨?_, rfl, rfl⟩
  simpa using count_expected_ht_entries_go kvs 0

/-- Every digit produced by repeated division is below the base. -/
theorem toDigitsRevFuel_lt_base (base : Nat) (hb : 0 < base) :
    ∀ (fuel n : Nat), ∀ d ∈ toDigitsRevFuel base fuel n, d < base := by
  intro fuel
  induction fuel with
  | zero => intro n d hd; simp [toDigitsRevFuel] at hd
  | succ fuel ih =>
      intro n d hd
      by_cases hn : n = 0
      · simp [toDigitsRevFuel, hn] at hd
      · simp only [toDigitsRevFuel, if_neg hn, List.mem_cons] at hd
        rcases hd with hd | hd
        · subst hd; exact Nat.mod_lt _ hb
        · exact ih (n / base) d hd

/-- Reading the produced digits back, most significant first, recovers
the value, as long as the fuel covers the magnitude. -/
theorem digitsVal_reverse_toDigitsRevFuel (base : Nat) (_hb : 2 ≤ base) :
    ∀ (fuel n : Nat), n < base ^ fuel →
      digitsVal base (toDigitsRevFuel base fuel n).reverse = n := by
  intro fuel
  induction fuel with
  | zero =>
      intro n h
      rw [pow_zero] at h
      have hn : n = 0 := by omega
      simp [toDigitsRevFuel, digitsVal, hn]
  | succ fuel ih =>
      intro n h
      by_cases hn : n = 0
      · simp [toDigitsRevFuel, digitsVal, hn]
      · have hdiv : n / base < base ^ fuel := by
          apply Nat.div_lt_of_lt_mul
          calc n < base ^ (fuel + 1) := h
            _ = base * base ^ fuel := by ring
        have ihv := ih (n / base) hdiv
        simp only [digitsVal] at ihv ⊢
        simp only [toDigitsRevFuel, if_neg hn, List.reverse_cons,
          List.foldl_append, List.foldl_cons, List.foldl_nil]
        rw [ihv, Nat.mul_comm (n / base) base]
        exact Nat.div_add_mod n base

/-- charToDigit inverts Nat.digitChar for decimal digits in base 10. -/
theorem charToDigit_digitChar_10 :
    ∀ d < 10, charToDigit 10 (Nat.digitChar d) = some d := by
  decide

/-- charToDigit inverts Nat.digitChar for hex digits in base 16. -/
theorem charToDigit_digitChar_16 :
    ∀ d < 16, charToDigit 16 (Nat.digitChar d) = some d := by
  decide

/-- Scanning a rendered digit list recovers the digits whenever each
digit renders to a character the scanner maps back. -/
theorem parseDigitsChars_map_digitChar (base : Nat) :
    ∀ ds : List Nat,
      (∀ d ∈ ds, charToDigit base (Nat.digitChar d) = some d) →
      parseDigitsChars base (ds.map Nat.digitChar) = some ds := by
  intro ds
  induction ds with
  | nil => intro _; rfl
  | cons d rest ih =>
      intro h
      have h1 := h d (List.mem_cons_self d rest)
      have h2 := ih fun x hx => h x (List.mem_cons_of_mem d hx)
      simp [parseDigitsChars, h1, h2]

/-- Every digit of a printed numeral is below the base. -/
theorem printDigits_lt (base n : Nat) (hb : 0 < base) :
    ∀ d ∈ printDigits base n, d < base := by
  intro d hd
  by_cases hn : n = 0
  · simp [printDigits, hn] at hd
    omega
  · simp only [printDigits, if_neg hn, List.mem_reverse] at hd
    exact toDigitsRevFuel_lt_base base hb 64 n d hd

/-- The value of a printed numeral is the printed value, for values a
64-digit rendering covers. -/
theorem digitsVal_printDigits (base n : Nat) (hb : 2 ≤ base)
    (hn : n < base ^ 64) : digitsVal base (printDigits base n) = n := by
  by_cases h0 : n = 0
  · simp [printDigits, digitsVal, h0]
  · simp only [printDigits, if_neg h0]
    exact digitsVal_reverse_toDigitsRevFuel base hb 64 n hn

/-- strtost undoes a decimal rendering of any value up to LLONG_MAX. -/
theorem strtost_printNumChars_10 (n : Nat) (hn : n ≤ LLONG_MAX) :
    strtost 10 (printNumChars 10 n) = some n := by
  have hparse : parseDigitsChars 10 ((printDigits 10 n).map Nat.digitChar)
      = some (printDigits 10 n) := by
    apply parseDigitsChars_map_digitChar
    intro d hd
    exact charToDigit_digitChar_10 d (printDigits_lt 10 n (by norm_num) d hd)
  have hmax : LLONG_MAX < 2 ^ 64 := by norm_num [LLONG_MAX]
  have hpow : (2 : Nat) ^ 64 ≤ 10 ^ 64 := Nat.pow_le_pow_left (by norm_num) 64
  have hval : digitsVal 10 (printDigits 10 n) = n :=
    digitsVal_printDigits 10 n (by norm_num) (by omega)
  simp only [strtost, printNumChars, hparse, hval]
  rw [if_neg (by omega)]

/-- strtost undoes a lowercase hex rendering of any value up to
LLONG_MAX. -/
theorem strtost_printNumChars_16 (n : Nat) (hn : n ≤ LLONG_MAX) :
    strtost 16 (printNumChars 16 n) = some n := by
  have hparse : parseDigitsChars 16 ((printDigits 16 n).map Nat.digitChar)
      = some (printDigits 16 n) := by
    apply parseDigitsChars_map_digitChar
    intro d hd
    exact charToDigit_digitChar_16 d (printDigits_lt 16 n (by norm_num) d hd)
  have hmax : LLONG_MAX < 2 ^ 64 := by norm_num [LLONG_MAX]
  have hpow : (2 : Nat) ^ 64 ≤ 16 ^ 64 := Nat.pow_le_pow_left (by norm_num) 64
  have hval : digitsVal 16 (printDigits 16 n) = n :=
    digitsVal_printDigits 16 n (by norm_num) (by omega)
  simp only [strtost, printNumChars, hparse, hval]
  rw [if_neg (by omega)]

/-- Counterexample to claim C3 as stated: at a segment size of 2^63 the
hex rendering parses back as out of range for strtoll, so the unpack of
the packed blob fails instead of returning the same five values. -/
theorem claim_C3_counterexample :
    (unpack_shmem_connection_info (KvboValue.byteObject
        { items := pack_shmem_connection_info [] 1 [] (2 ^ 63) 0
          tail := PmixStatus.errUnpackReadPastEndOfBuffer })).1
      ≠ PmixStatus.success := by
  decide

/-- Claim C3, amended: packing the five connection-info fields and
unpacking the resulting blob succeeds and returns the same five values,
for field values representable in a long long (at most LLONG_MAX); the
decoder rejects larger values as out of range. -/
theorem claim_C3_roundtrip (nsid path : List Char) (smid size addr : Nat)
    (h1 : smid ≤ LLONG_MAX) (h2 : size ≤ LLONG_MAX) (h3 : addr ≤ LLONG_MAX) :
    unpack_shmem_connection_info (KvboValue.byteObject
        { items := pack_shmem_connection_info nsid smid path size addr
          tail := PmixStatus.errUnpackReadPastEndOfBuffer })
      = (PmixStatus.success,
         { nsid := some nsid, smid := some smid, seg_path := some path
           seg_size := size, seg_addr := addr }) := by
  have hs1 := strtost_printNumChars_10 smid h1
  have hs2 := strtost_printNumChars_16 size h2
  have hs3 := strtost_printNumChars_16 addr h3
  simp [unpack_shmem_connection_info, pack_shmem_connection_info, unpack_ci_loop,
    hs1, hs2, hs3, unpacked_seg_blob_construct,
    SHMEM_SEG_NSID_KEY, SHMEM_SEG_SMID_KEY, SHMEM_SEG_PATH_KEY,
    SHMEM_SEG_SIZE_KEY, SHMEM_SEG_ADDR_KEY]

/-- Witness for claim C3 (amended) at concrete field values. -/
theorem claim_C3_witness :
    unpack_shmem_connection_info (KvboValue.byteObject
        { items := pack_shmem_connection_info ['n', 's'] 1 ['/', 't'] 4096 65536
          tail := PmixStatus.errUnpackReadPastEndOfBuffer })
      = (PmixStatus.success,
         { nsid := some ['n', 's'], smid := some 1, seg_path := some ['/', 't']
           seg_size := 4096, seg_addr := 65536 }) := by
  exact claim_C3_roundtrip ['n', 's'] ['/', 't'] 1 4096 65536
    (by decide) (by decide) (by decide)

/-- Claim C2, amended: in both client unpack loops an unrecognized key
stops the loop with an internal bad-parameter status, after which the
operation returns the unpack-failure error (not bad-parameter); and each
operation returns success exactly when its loop terminates with the
read-past-end-of-buffer codec status. -/
theorem claim_C2_unpack_status (buf : PackedBuffer) (tail : PmixStatus)
    (usb : UnpackedSegBlob) (kv : SegKv) (rest : List SegKv)
    (h : JobInfoKval → PmixStatus) (buff : JobInfoBuffer)
    (kval : JobInfoKval) (rest2 : List JobInfoKval)
    (hk1 : kv.key ≠ SHMEM_SEG_NSID_KEY) (hk2 : kv.key ≠ SHMEM_SEG_SMID_KEY)
    (hk3 : kv.key ≠ SHMEM_SEG_PATH_KEY) (hk4 : kv.key ≠ SHMEM_SEG_SIZE_KEY)
    (hk5 : kv.key ≠ SHMEM_SEG_ADDR_KEY)
    (hj1 : kval.key ≠ SHMEM_SEG_BLOB_KEY)
    (hj2 : kval.key ≠ PMIX_SESSION_INFO_ARRAY)
    (hj3 : kval.key ≠ PMIX_NODE_INFO_ARRAY)
    (hj4 : kval.key ≠ PMIX_APP_INFO_ARRAY) :
    ((unpack_shmem_connection_info (KvboValue.byteObject buf)).1
        = PmixStatus.success
      ↔ (unpack_ci_loop buf.tail unpacked_seg_blob_construct buf.items).1
          = PmixStatus.errUnpackReadPastEndOfBuffer)
    ∧ unpack_ci_loop tail usb (kv :: rest) = (PmixStatus.errBadParam, usb)
    ∧ (unpack_shmem_connection_info (KvboValue.byteObject
        { items := kv :: rest, tail := tail })).1 = PmixStatus.errUnpackFailure
    ∧ (store_job_info h buff = PmixStatus.success
        ↔ store_job_info_loop h buff.tail buff.items
            = PmixStatus.errUnpackReadPastEndOfBuffer)
    ∧ store_job_info_loop h tail (kval :: rest2) = PmixStatus.errBadParam
    ∧ store_job_info h { items := kval :: rest2, tail := tail }
        = PmixStatus.errUnpackFailure := by
  refine ⟨?_, ?_, ?_, ?_, ?_, ?_⟩
  · by_cases hr : (unpack_ci_loop buf.tail unpacked_seg_blob_construct
        buf.items).1 = PmixStatus.errUnpackReadPastEndOfBuffer <;>
      simp [unpack_shmem_connection_info, hr]
  · simp [unpack_ci_loop, hk1, hk2, hk3, hk4, hk5]
  · have hstep : unpack_ci_loop tail unpacked_seg_blob_construct (kv :: rest)
        = (PmixStatus.errBadParam, unpacked_seg_blob_construct) := by
      simp [unpack_ci_loop, hk1, hk2, hk3, hk4, hk5]
    simp [unpack_shmem_connection_info, hstep]
  · by_cases hr : store_job_info_loop h buff.tail buff.items
        = PmixStatus.errUnpackReadPastEndOfBuffer <;>
      simp [store_job_info, hr]
  · simp [store_job_info_loop, hj1, hj2, hj3, hj4]
  · have hstep : store_job_info_loop h tail (kval :: rest2)
        = PmixStatus.errBadParam := by
      simp [store_job_info_loop, hj1, hj2, hj3, hj4]
    simp [store_job_info, hstep]

/-- Counterexample to claim C2 as stated: a reply buffer holding one
unrecognized key makes store_job_info return the unpack-failure status,
not the bad-parameter error the claim names. -/
theorem claim_C2_counterexample :
    store_job_info (fun _ => PmixStatus.success)
        { items := [{ key := "PMIX_BOGUS_KEY" }]
          tail := PmixStatus.errUnpackReadPastEndOfBuffer }
      = PmixStatus.errUnpackFailure
    ∧ PmixStatus.errUnpackFailure ≠ PmixStatus.errBadParam := by
  exact ⟨rfl, by decide⟩

/-- Witness for claim C2 (amended) at a concrete unrecognized key. -/
theorem claim_C2_witness :
    unpack_ci_loop PmixStatus.errUnpackReadPastEndOfBuffer
        unpacked_seg_blob_construct [{ key := "PMIX_WRONG_KEY", val := [] }]
      = (PmixStatus.errBadParam, unpacked_seg_blob_construct)
    ∧ (unpack_shmem_connection_info (KvboValue.byteObject
        { items := [{ key := "PMIX_WRONG_KEY", val := [] }]
          tail := PmixStatus.errUnpackReadPastEndOfBuffer })).1
      = PmixStatus.errUnpackFailure := by
  have h := claim_C2_unpack_status ⟨[], PmixStatus.success⟩
    PmixStatus.errUnpackReadPastEndOfBuffer unpacked_seg_blob_construct
    ⟨"PMIX_WRONG_KEY", []⟩ [] (fun _ => PmixStatus.success)
    ⟨[], PmixStatus.success⟩ ⟨"X"⟩ []
    (by decide) (by decide) (by decide) (by decide) (by decide)
    (by decide) (by decide) (by decide) (by decide)
  exact ⟨h.2.1, h.2.2.1⟩

end GdsShmem
